import Mathlib

set_option maxHeartbeats 1000000

/-!
Shallow embedding of the Symbiote conversation-session core:
`src/db/models.py`, `src/db/repository.py`, `src/db/connection.py` and
`src/db/session_manager.py`.

Modelling conventions:
* `datetime.utcnow()` is a logical clock (`DB.clock : Nat`); every row
  creation or update consumes one tick, so creation timestamps are
  strictly increasing in insertion order.
* `uuid.uuid4()` draws are explicit `String` parameters of the
  operations that perform them.
* SQLAlchemy tables are Lean lists kept in insertion order; primary
  keys come from per-table counters; `query(...).first()` is
  `List.find?`; `order_by` is an insertion sort on the key.
* `connection.get_session`'s commit-on-success / rollback-on-exception
  context manager is `runTx`; `session.flush()` can be made to raise a
  storage failure by the `faultAt` oracle (the index of the flush call
  that fails), which models a transaction failing partway.
-/

inductive TaskStatus where
  | PENDING
  | IN_PROGRESS
  | COMPLETED
  | FAILED
  | CANCELLED
deriving DecidableEq, Repr

def TaskStatus.value : TaskStatus → String
  | .PENDING => "pending"
  | .IN_PROGRESS => "in_progress"
  | .COMPLETED => "completed"
  | .FAILED => "failed"
  | .CANCELLED => "cancelled"

inductive MessageRole where
  | SYSTEM
  | USER
  | ASSISTANT
deriving DecidableEq, Repr

def MessageRole.value : MessageRole → String
  | .SYSTEM => "system"
  | .USER => "user"
  | .ASSISTANT => "assistant"

inductive AgentType where
  | DEEPSEEK_R1
  | LLAVA
  | PHI3
deriving DecidableEq, Repr

def AgentType.value : AgentType → String
  | .DEEPSEEK_R1 => "deepseek-r1"
  | .LLAVA => "llava"
  | .PHI3 => "phi3"

/-- Row of the `agents` table (`models.Agent`). -/
structure AgentRec where
  id : Nat
  name : String
  agent_type : AgentType
  model_name : String
  description : Option String
  capabilities : Option String
  created_at : Nat
deriving DecidableEq, Repr

/-- Row of the `tasks` table (`models.Task`). -/
structure TaskRec where
  id : Nat
  external_id : String
  title : String
  description : Option String
  website_url : Option String
  status : TaskStatus
  task_metadata : Option String
  created_at : Nat
  updated_at : Nat
  completed_at : Option Nat
deriving DecidableEq, Repr

/-- Row of the `chats` table (`models.Chat`). -/
structure ChatRec where
  id : Nat
  session_id : String
  task_id : Nat
  step_count : Nat
  context : Option String
  is_active : Bool
  created_at : Nat
  updated_at : Nat
deriving DecidableEq, Repr

/-- Row of the `messages` table (`models.Message`). -/
structure MessageRec where
  id : Nat
  chat_id : Nat
  agent_id : Option Nat
  role : MessageRole
  content : String
  image_refs : Option (List String)
  action_data : Option String
  confidence : Option Rat
  created_at : Nat
deriving DecidableEq, Repr

/-- The relational store: all four tables, the autoincrement counters
and the logical clock. -/
structure DB where
  tasks : List TaskRec
  chats : List ChatRec
  messages : List MessageRec
  agents : List AgentRec
  nextTaskId : Nat
  nextChatId : Nat
  nextMessageId : Nat
  nextAgentId : Nat
  clock : Nat
deriving DecidableEq, Repr

/-- Error taxonomy: `ValueError("Task not found: ...")`,
`ValueError("Session not found: ...")` and storage-level failures
surfaced by a failing flush/commit. -/
inductive Err where
  | taskNotFound (task_id : String)
  | sessionNotFound (session_id : String)
  | storageFailure
deriving DecidableEq, Repr

/-- An open SQLAlchemy session: the uncommitted store plus the flush
fault oracle (`faultAt = some n` makes the n-th flush raise). -/
structure Sess where
  db : DB
  faultAt : Option Nat
  flushes : Nat
deriving Repr

/-- `session.flush()`: fails iff the oracle names this flush call. -/
def Sess.flush (s : Sess) : Except Err Sess :=
  if s.faultAt = some s.flushes then .error .storageFailure
  else .ok { s with flushes := s.flushes + 1 }

/-- `connection.get_session`: run the body on a fresh session; commit
its store on success, roll back to the original store on exception. -/
def runTx {α : Type} (db : DB) (faultAt : Option Nat)
    (body : Sess → Except Err (α × Sess)) : Except Err α × DB :=
  match body { db := db, faultAt := faultAt, flushes := 0 } with
  | .ok (a, s) => (.ok a, s.db)
  | .error e => (.error e, db)

/-- Python's `session_id or str(uuid.uuid4())` for an optional string
`session_id` and a fresh draw `default`: both `None` and the empty
string are falsy, so either is replaced by the draw
(`repository.py` line 161, `session_manager.py` line 124). -/
def strOrDefault (s : Option String) (default : String) : String :=
  match s with
  | none => default
  | some v => if v = "" then default else v

/-- Stable ascending insertion by a `Nat` key (ties keep earlier
elements first), used for `order_by(X.created_at)`. -/
def insertByKey {α : Type} (key : α → Nat) (x : α) : List α → List α
  | [] => [x]
  | y :: ys => if key x < key y then x :: y :: ys else y :: insertByKey key x ys

/-- `ORDER BY key ASC` as a stable insertion sort. -/
def sortByKey {α : Type} (key : α → Nat) : List α → List α
  | [] => []
  | x :: xs => insertByKey key x (sortByKey key xs)

/-- Stable descending insertion by a `Nat` key, for
`order_by(desc(X.created_at))`. -/
def insertByKeyDesc {α : Type} (key : α → Nat) (x : α) : List α → List α
  | [] => [x]
  | y :: ys => if key y < key x then x :: y :: ys else y :: insertByKeyDesc key x ys

/-- `ORDER BY key DESC` as a stable insertion sort. -/
def sortByKeyDesc {α : Type} (key : α → Nat) : List α → List α
  | [] => []
  | x :: xs => insertByKeyDesc key x (sortByKeyDesc key xs)

/-! ## Repository layer (`repository.py`) -/

/-- `AgentRepository.get_by_type`. -/
def AgentRepository.get_by_type (db : DB) (agent_type : AgentType) : Option AgentRec :=
  db.agents.find? (fun a => a.agent_type == agent_type)

/-- `AgentRepository.create`. -/
def AgentRepository.create (s : Sess) (name : String) (agent_type : AgentType)
    (model_name : String) (description : Option String)
    (capabilities : Option String) : Except Err (AgentRec × Sess) :=
  let agent : AgentRec :=
    { id := s.db.nextAgentId, name := name, agent_type := agent_type,
      model_name := model_name, description := description,
      capabilities := capabilities, created_at := s.db.clock }
  let s1 : Sess := { s with db := { s.db with
      agents := s.db.agents ++ [agent],
      nextAgentId := s.db.nextAgentId + 1,
      clock := s.db.clock + 1 } }
  match s1.flush with
  | .error e => .error e
  | .ok s2 => .ok (agent, s2)

/-- `AgentRepository.get_or_create`. -/
def AgentRepository.get_or_create (s : Sess) (agent_type : AgentType)
    (model_name : String) : Except Err (AgentRec × Sess) :=
  match AgentRepository.get_by_type s.db agent_type with
  | some agent => .ok (agent, s)
  | none => AgentRepository.create s agent_type.value agent_type model_name none none

/-- `TaskRepository.create`; `uuid` is the `uuid.uuid4()` draw used
for `external_id`. -/
def TaskRepository.create (s : Sess) (uuid : String) (title : String)
    (description : Option String) (website_url : Option String)
    (task_metadata : Option String) : Except Err (TaskRec × Sess) :=
  let task : TaskRec :=
    { id := s.db.nextTaskId, external_id := uuid, title := title,
      description := description, website_url := website_url,
      status := TaskStatus.PENDING, task_metadata := task_metadata,
      created_at := s.db.clock, updated_at := s.db.clock, completed_at := none }
  let s1 : Sess := { s with db := { s.db with
      tasks := s.db.tasks ++ [task],
      nextTaskId := s.db.nextTaskId + 1,
      clock := s.db.clock + 1 } }
  match s1.flush with
  | .error e => .error e
  | .ok s2 => .ok (task, s2)

/-- `TaskRepository.get_by_id`. -/
def TaskRepository.get_by_id (db : DB) (task_id : Nat) : Option TaskRec :=
  db.tasks.find? (fun t => t.id == task_id)

/-- `TaskRepository.get_by_external_id`. -/
def TaskRepository.get_by_external_id (db : DB) (external_id : String) : Option TaskRec :=
  db.tasks.find? (fun t => t.external_id == external_id)

/-- `TaskRepository.update_status`: sets the status, stamps
`completed_at` with the current time exactly when the new status is
`COMPLETED`, and flushes. -/
def TaskRepository.update_status (s : Sess) (task_id : Nat) (status : TaskStatus) :
    Except Err (Option TaskRec × Sess) :=
  match TaskRepository.get_by_id s.db task_id with
  | none => .ok (none, s)
  | some task =>
    let task1 : TaskRec := { task with
        status := status,
        completed_at := if status = TaskStatus.COMPLETED then some s.db.clock
                        else task.completed_at,
        updated_at := s.db.clock }
    let s1 : Sess := { s with db := { s.db with
        tasks := s.db.tasks.map (fun t => if t.id == task_id then task1 else t),
        clock := s.db.clock + 1 } }
    match s1.flush with
    | .error e => .error e
    | .ok s2 => .ok (some task1, s2)

/-- `TaskRepository.delete`: `session.delete(task)` with the
`cascade="all, delete-orphan"` relationships of `models.py` — the
task's chats and those chats' messages go with it. -/
def TaskRepository.delete (db : DB) (task_id : Nat) : Bool × DB :=
  match TaskRepository.get_by_id db task_id with
  | none => (false, db)
  | some task =>
    let deadChatIds := (db.chats.filter (fun c => c.task_id == task.id)).map ChatRec.id
    (true, { db with
      tasks := db.tasks.filter (fun t => !(t.id == task.id)),
      chats := db.chats.filter (fun c => !(c.task_id == task.id)),
      messages := db.messages.filter (fun m => !(deadChatIds.contains m.chat_id)) })

/-- `ChatRepository.create`; `uuid` is the `uuid.uuid4()` draw used
when the supplied `session_id` is falsy (`None` or `""`). -/
def ChatRepository.create (s : Sess) (task_id : Nat) (session_id : Option String)
    (uuid : String) (context : Option String) : Except Err (ChatRec × Sess) :=
  let chat : ChatRec :=
    { id := s.db.nextChatId, session_id := strOrDefault session_id uuid, task_id := task_id,
      step_count := 0, context := context, is_active := true,
      created_at := s.db.clock, updated_at := s.db.clock }
  let s1 : Sess := { s with db := { s.db with
      chats := s.db.chats ++ [chat],
      nextChatId := s.db.nextChatId + 1,
      clock := s.db.clock + 1 } }
  match s1.flush with
  | .error e => .error e
  | .ok s2 => .ok (chat, s2)

/-- `ChatRepository.get_by_id`. -/
def ChatRepository.get_by_id (db : DB) (chat_id : Nat) : Option ChatRec :=
  db.chats.find? (fun c => c.id == chat_id)

/-- `ChatRepository.get_by_session_id`. -/
def ChatRepository.get_by_session_id (db : DB) (session_id : String) : Option ChatRec :=
  db.chats.find? (fun c => c.session_id == session_id)

/-- `ChatRepository.get_or_create`; `uuid` is the draw `create` would
use when the supplied `session_id` is the empty string. -/
def ChatRepository.get_or_create (s : Sess) (session_id : String) (task_id : Nat)
    (uuid : String) : Except Err (ChatRec × Sess) :=
  match ChatRepository.get_by_session_id s.db session_id with
  | some chat => .ok (chat, s)
  | none => ChatRepository.create s task_id (some session_id) uuid none

/-- `ChatRepository.increment_step_count`. -/
def ChatRepository.increment_step_count (s : Sess) (chat_id : Nat) :
    Except Err (Option ChatRec × Sess) :=
  match ChatRepository.get_by_id s.db chat_id with
  | none => .ok (none, s)
  | some chat =>
    let chat1 : ChatRec := { chat with
        step_count := chat.step_count + 1,
        updated_at := s.db.clock }
    let s1 : Sess := { s with db := { s.db with
        chats := s.db.chats.map (fun c => if c.id == chat_id then chat1 else c),
        clock := s.db.clock + 1 } }
    match s1.flush with
    | .error e => .error e
    | .ok s2 => .ok (some chat1, s2)

/-- `ChatRepository.list_by_task`. -/
def ChatRepository.list_by_task (db : DB) (task_id : Nat) (active_only : Bool) :
    List ChatRec :=
  let l := db.chats.filter (fun c => c.task_id == task_id)
  let l1 := if active_only then l.filter (fun c => c.is_active) else l
  sortByKeyDesc ChatRec.created_at l1

/-- `MessageRepository.create`. -/
def MessageRepository.create (s : Sess) (chat_id : Nat) (role : MessageRole)
    (content : String) (agent_id : Option Nat) (image_refs : Option (List String))
    (action_data : Option String) (confidence : Option Rat) :
    Except Err (MessageRec × Sess) :=
  let message : MessageRec :=
    { id := s.db.nextMessageId, chat_id := chat_id, agent_id := agent_id,
      role := role, content := content, image_refs := image_refs,
      action_data := action_data, confidence := confidence,
      created_at := s.db.clock }
  let s1 : Sess := { s with db := { s.db with
      messages := s.db.messages ++ [message],
      nextMessageId := s.db.nextMessageId + 1,
      clock := s.db.clock + 1 } }
  match s1.flush with
  | .error e => .error e
  | .ok s2 => .ok (message, s2)

/-- `MessageRepository.list_by_chat`: filter by chat, order by
creation time; Python's `if limit:` is false for both `None` and 0. -/
def MessageRepository.list_by_chat (db : DB) (chat_id : Nat) (limit : Option Nat) :
    List MessageRec :=
  let l := sortByKey MessageRec.created_at
    (db.messages.filter (fun m => m.chat_id == chat_id))
  match limit with
  | none => l
  | some n => if n = 0 then l else l.take n

/-- One `{role, content}` entry of the materialized context. -/
structure ContextEntry where
  role : String
  content : String
deriving DecidableEq, Repr

/-- `MessageRepository.get_context_messages`. -/
def MessageRepository.get_context_messages (db : DB) (chat_id : Nat)
    (include_system : Bool) : List ContextEntry :=
  ((MessageRepository.list_by_chat db chat_id none).filter
      (fun m => include_system || !(m.role == MessageRole.SYSTEM))).map
    (fun m => { role := m.role.value, content := m.content })

/-! ## Session manager facade (`session_manager.py`) -/

/-- `SessionManager.create_task`; `uuid` is the draw for the new
task's `external_id`. -/
def SessionManager.create_task (db : DB) (faultAt : Option Nat) (uuid : String)
    (title : String) (website_url : Option String) (description : Option String)
    (task_metadata : Option String) : Except Err String × DB :=
  runTx db faultAt (fun s =>
    match TaskRepository.create s uuid title description website_url task_metadata with
    | .error e => .error e
    | .ok (task, s1) => .ok (task.external_id, s1))

/-- The dictionary `SessionManager.get_task` builds from a task row. -/
structure TaskInfo where
  id : String
  title : String
  description : Option String
  website_url : Option String
  status : String
  created_at : Nat
  updated_at : Nat
deriving DecidableEq, Repr

/-- `SessionManager.get_task` (read-only). -/
def SessionManager.get_task (db : DB) (task_id : String) : Option TaskInfo :=
  match TaskRepository.get_by_external_id db task_id with
  | none => none
  | some task =>
    some { id := task.external_id, title := task.title,
           description := task.description, website_url := task.website_url,
           status := task.status.value, created_at := task.created_at,
           updated_at := task.updated_at }

/-- `SessionManager.update_task_status`. -/
def SessionManager.update_task_status (db : DB) (faultAt : Option Nat)
    (task_id : String) (status : TaskStatus) : Except Err Bool × DB :=
  runTx db faultAt (fun s =>
    match TaskRepository.get_by_external_id s.db task_id with
    | some task =>
      match TaskRepository.update_status s task.id status with
      | .error e => .error e
      | .ok (_, s1) => .ok (true, s1)
    | none => .ok (false, s))

/-- `SessionManager.create_session`; `uuid` is the draw used when the
supplied `session_id` is falsy (`None` or `""`). `ChatRepository.create`
consults its own draw only when handed an empty string, which here
happens only when the draw itself is empty, so one parameter models
both `uuid.uuid4()` calls. -/
def SessionManager.create_session (db : DB) (faultAt : Option Nat)
    (task_id : String) (session_id : Option String) (uuid : String)
    (context : Option String) : Except Err String × DB :=
  runTx db faultAt (fun s =>
    match TaskRepository.get_by_external_id s.db task_id with
    | none => .error (.taskNotFound task_id)
    | some task =>
      match ChatRepository.create s task.id
          (some (strOrDefault session_id uuid)) uuid context with
      | .error e => .error e
      | .ok (chat, s1) => .ok (chat.session_id, s1))

/-- `SessionManager.get_or_create_session`; `taskUuid` is the draw for
the `external_id` of the placeholder task created on the fly when
`task_id` does not resolve, and `chatUuid` the draw
`ChatRepository.create` uses when the supplied `session_id` is the
empty string. -/
def SessionManager.get_or_create_session (db : DB) (faultAt : Option Nat)
    (session_id : String) (task_id : String) (taskUuid : String)
    (chatUuid : String) : Except Err String × DB :=
  runTx db faultAt (fun s =>
    match ChatRepository.get_by_session_id s.db session_id with
    | some chat => .ok (chat.session_id, s)
    | none =>
      let taskStep : Except Err (TaskRec × Sess) :=
        match TaskRepository.get_by_external_id s.db task_id with
        | some task => .ok (task, s)
        | none =>
          TaskRepository.create s taskUuid ("Task " ++ task_id)
            (some "Auto-created task") none none
      match taskStep with
      | .error e => .error e
      | .ok (task, s1) =>
        match ChatRepository.create s1 task.id (some session_id) chatUuid none with
        | .error e => .error e
        | .ok (chat, s2) => .ok (chat.session_id, s2))

/-- `SessionManager.session_exists` (read-only). -/
def SessionManager.session_exists (db : DB) (session_id : String) : Bool :=
  (ChatRepository.get_by_session_id db session_id).isSome

/-- `SessionManager.add_system_message`. -/
def SessionManager.add_system_message (db : DB) (faultAt : Option Nat)
    (session_id : String) (content : String) : Except Err Nat × DB :=
  runTx db faultAt (fun s =>
    match ChatRepository.get_by_session_id s.db session_id with
    | none => .error (.sessionNotFound session_id)
    | some chat =>
      match MessageRepository.create s chat.id MessageRole.SYSTEM content
          none none none none with
      | .error e => .error e
      | .ok (message, s1) => .ok (message.id, s1))

/-- `SessionManager.add_user_message`. -/
def SessionManager.add_user_message (db : DB) (faultAt : Option Nat)
    (session_id : String) (content : String) (image_refs : Option (List String)) :
    Except Err Nat × DB :=
  runTx db faultAt (fun s =>
    match ChatRepository.get_by_session_id s.db session_id with
    | none => .error (.sessionNotFound session_id)
    | some chat =>
      match MessageRepository.create s chat.id MessageRole.USER content
          none image_refs none none with
      | .error e => .error e
      | .ok (message, s1) => .ok (message.id, s1))

/-- `SessionManager.add_assistant_message`: resolve session, get or
create the agent, insert the message, increment the step count — all
inside one transaction. -/
def SessionManager.add_assistant_message (db : DB) (faultAt : Option Nat)
    (session_id : String) (content : String) (agent_type : AgentType)
    (model_name : String) (action_data : Option String)
    (confidence : Option Rat) : Except Err Nat × DB :=
  runTx db faultAt (fun s =>
    match ChatRepository.get_by_session_id s.db session_id with
    | none => .error (.sessionNotFound session_id)
    | some chat =>
      match AgentRepository.get_or_create s agent_type model_name with
      | .error e => .error e
      | .ok (agent, s1) =>
        match MessageRepository.create s1 chat.id MessageRole.ASSISTANT content
            (some agent.id) none action_data confidence with
        | .error e => .error e
        | .ok (message, s2) =>
          match ChatRepository.increment_step_count s2 chat.id with
          | .error e => .error e
          | .ok (_, s3) => .ok (message.id, s3))

/-- `SessionManager.get_context` (read-only). -/
def SessionManager.get_context (db : DB) (session_id : String)
    (include_system : Bool) : List ContextEntry :=
  match ChatRepository.get_by_session_id db session_id with
  | none => []
  | some chat => MessageRepository.get_context_messages db chat.id include_system

/-- `SessionManager.get_step_count` (read-only). -/
def SessionManager.get_step_count (db : DB) (session_id : String) : Nat :=
  match ChatRepository.get_by_session_id db session_id with
  | some chat => chat.step_count
  | none => 0

/-! ## Sequences of message appends on one session -/

/-- One `add_*_message` call on a fixed session. -/
inductive Op where
  | sys (content : String)
  | user (content : String) (image_refs : Option (List String))
  | asst (content : String) (agent_type : AgentType) (model_name : String)
         (action_data : Option String) (confidence : Option Rat)
deriving DecidableEq, Repr

/-- The role the call appends. -/
def opRole : Op → MessageRole
  | .sys _ => .SYSTEM
  | .user _ _ => .USER
  | .asst _ _ _ _ _ => .ASSISTANT

/-- The content the call appends. -/
def opContent : Op → String
  | .sys content => content
  | .user content _ => content
  | .asst content _ _ _ _ => content

/-- Whether the call is an `add_assistant_message`. -/
def opIsAsst : Op → Bool
  | .asst _ _ _ _ _ => true
  | _ => false

/-- Apply one `add_*_message` call (its own transaction, no injected
storage fault) and keep the resulting store. -/
def applyOp (sid : String) (db : DB) : Op → DB
  | .sys content => (SessionManager.add_system_message db none sid content).2
  | .user content imgs => (SessionManager.add_user_message db none sid content imgs).2
  | .asst content t m a cf =>
    (SessionManager.add_assistant_message db none sid content t m a cf).2

/-- Run a sequence of `add_*_message` calls on one session. -/
def runOps (sid : String) (ops : List Op) (db : DB) : DB :=
  ops.foldl (applyOp sid) db

/-- The `{role, content}` entries a call sequence contributes to
`get_context`, in call order, filtered by `include_system`. -/
def renderOps (include_system : Bool) (ops : List Op) : List ContextEntry :=
  (ops.filter (fun op => include_system || !(opRole op == MessageRole.SYSTEM))).map
    (fun op => { role := (opRole op).value, content := opContent op })

/-! ## Store well-formedness -/

/-- Invariants every store reachable through the repository layer
satisfies: unique primary keys and unique externally-visible UUIDs
(the store's `unique=True` columns), strictly increasing message
creation timestamps, and a clock ahead of every stored timestamp. -/
def DB.WF (db : DB) : Prop :=
  (db.tasks.map TaskRec.id).Nodup ∧
  (db.tasks.map TaskRec.external_id).Nodup ∧
  (db.chats.map ChatRec.id).Nodup ∧
  (db.chats.map ChatRec.session_id).Nodup ∧
  db.messages.Pairwise (fun a b => a.created_at < b.created_at) ∧
  (∀ m ∈ db.messages, m.created_at < db.clock)

instance (db : DB) : Decidable db.WF := by
  unfold DB.WF
  infer_instance

/-! ## Concrete stores used by the witnesses -/

/-- The store right after `init_db`: empty tables. -/
def emptyDB : DB :=
  { tasks := [], chats := [], messages := [], agents := [],
    nextTaskId := 1, nextChatId := 1, nextMessageId := 1, nextAgentId := 1,
    clock := 0 }

/-- A store holding one task (external id `"task-A"`). -/
def dbWithTask : DB :=
  (SessionManager.create_task emptyDB none "task-A" "Test GitHub search"
    (some "https://github.com") none none).2

/-- A store holding one task and one session (`"sess-1"`). -/
def dbWithSession : DB :=
  (SessionManager.create_session dbWithTask none "task-A" (some "sess-1")
    "unused-uuid" none).2

/-- The session row of `dbWithSession`. -/
def chatOne : ChatRec :=
  { id := 1, session_id := "sess-1", task_id := 1, step_count := 0,
    context := none, is_active := true, created_at := 1, updated_at := 1 }

/-- The agent row created on first use of the LLAVA type with model
`"m1"` against `dbWithSession`. -/
def agentOne : AgentRec :=
  { id := 1, name := "llava", agent_type := AgentType.LLAVA,
    model_name := "m1", description := none, capabilities := none,
    created_at := 2 }

/-- The open session state right after that agent creation. -/
def sessAfterAgent : Sess :=
  { db := { dbWithSession with
      agents := dbWithSession.agents ++ [agentOne],
      nextAgentId := 2, clock := 3 },
    faultAt := none, flushes := 1 }

/-- The task row of `dbWithTask` and its descendants. -/
def taskOne : TaskRec :=
  { id := 1, external_id := "task-A", title := "Test GitHub search",
    description := none, website_url := some "https://github.com",
    status := TaskStatus.PENDING, task_metadata := none,
    created_at := 0, updated_at := 0, completed_at := none }

/-- A store holding one task, one session and one user message. -/
def dbWithMsg : DB :=
  (SessionManager.add_user_message dbWithSession none "sess-1" "hello" none).2

/-! ## Helper lemmas -/

theorem Sess.flush_none (s : Sess) (h : s.faultAt = none) :
    s.flush = .ok { s with flushes := s.flushes + 1 } := by
  simp [Sess.flush, h]

theorem strOrDefault_idem (s : Option String) (u : String) :
    strOrDefault (some (strOrDefault s u)) u = strOrDefault s u := by
  cases s with
  | none => simp [strOrDefault]
  | some v =>
    by_cases hv : v = "" <;> simp [strOrDefault, hv]

theorem insertByKey_of_lt_head {α : Type} (key : α → Nat) (x : α) (l : List α)
    (h : ∀ y ∈ l, key x < key y) : insertByKey key x l = x :: l := by
  cases l with
  | nil => rfl
  | cons y ys => simp [insertByKey, h y (by simp)]

theorem sortByKey_eq_self {α : Type} (key : α → Nat) (l : List α)
    (h : l.Pairwise (fun a b => key a < key b)) : sortByKey key l = l := by
  induction l with
  | nil => rfl
  | cons x xs ih =>
    obtain ⟨h1, h2⟩ := List.pairwise_cons.mp h
    rw [sortByKey, ih h2, insertByKey_of_lt_head key x xs h1]

theorem find?_map_pred {α : Type} (p : α → Bool) (f : α → α) (l : List α)
    (h : ∀ x ∈ l, p (f x) = p x) : (l.map f).find? p = (l.find? p).map f := by
  induction l with
  | nil => rfl
  | cons x xs ih =>
    have hx := h x (by simp)
    have ihx := ih (fun y hy => h y (List.mem_cons_of_mem x hy))
    cases hp : p x with
    | true => simp [List.find?_cons, hx, hp]
    | false => simp [List.find?_cons, hx, hp, ihx]

theorem get_by_session_id_mem {db : DB} {sid : String} {c : ChatRec}
    (hc : ChatRepository.get_by_session_id db sid = some c) :
    c ∈ db.chats ∧ c.session_id = sid := by
  refine ⟨List.mem_of_find?_eq_some hc, ?_⟩
  have := List.find?_some hc
  simpa using this

theorem get_by_id_of_mem {db : DB} (h : (db.chats.map ChatRec.id).Nodup)
    {c : ChatRec} (hc : c ∈ db.chats) :
    ChatRepository.get_by_id db c.id = some c := by
  unfold ChatRepository.get_by_id
  cases hfind : db.chats.find? (fun x => x.id == c.id) with
  | none =>
    exfalso
    have := List.find?_eq_none.mp hfind c hc
    simp at this
  | some x =>
    have hxmem := List.mem_of_find?_eq_some hfind
    have hxid : x.id = c.id := by simpa using List.find?_some hfind
    rw [List.inj_on_of_nodup_map h hxmem hc hxid]

theorem find?_after_update {db : DB} {sid : String} {c : ChatRec} (u : ChatRec)
    (hnod : (db.chats.map ChatRec.id).Nodup)
    (hsid : u.session_id = c.session_id)
    (hc : ChatRepository.get_by_session_id db sid = some c) :
    (db.chats.map (fun x => if x.id == c.id then u else x)).find?
      (fun x => x.session_id == sid) = some u := by
  have hcm : c ∈ db.chats := List.mem_of_find?_eq_some hc
  rw [find?_map_pred]
  · rw [show db.chats.find? (fun x => x.session_id == sid) = some c from hc]
    simp
  · intro x hx
    by_cases hxc : x.id = c.id
    · have hxeq : x = c := List.inj_on_of_nodup_map hnod hx hcm hxc
      simp [hxc, hxeq, hsid]
    · simp [hxc]

theorem map_update_proj {l : List ChatRec} {c : ChatRec} (u : ChatRec)
    (hnod : (l.map ChatRec.id).Nodup) (hmem : c ∈ l)
    (hid : u.id = c.id) (hsid : u.session_id = c.session_id) :
    (l.map (fun x => if x.id == c.id then u else x)).map ChatRec.id = l.map ChatRec.id ∧
    (l.map (fun x => if x.id == c.id then u else x)).map ChatRec.session_id
      = l.map ChatRec.session_id := by
  constructor
  · rw [List.map_map]
    refine List.map_congr_left ?_
    intro x _
    by_cases hxc : x.id = c.id
    · simp [hxc, hid]
    · simp [hxc]
  · rw [List.map_map]
    refine List.map_congr_left ?_
    intro x hx
    by_cases hxc : x.id = c.id
    · have hxeq : x = c := List.inj_on_of_nodup_map hnod hx hmem hxc
      simp [hxc, hxeq, hsid]
    · simp [hxc]

/-- Well-formedness is preserved by any step that keeps the tasks,
keeps chat primary keys and session ids pointwise, appends one message
timestamped at or after the old clock, and advances the clock past
it. -/
theorem wf_step {db db' : DB} (hwf : db.WF)
    (htasks : db'.tasks = db.tasks)
    (hcid : db'.chats.map ChatRec.id = db.chats.map ChatRec.id)
    (hcsid : db'.chats.map ChatRec.session_id = db.chats.map ChatRec.session_id)
    {m : MessageRec} (hmsgs : db'.messages = db.messages ++ [m])
    (h1 : db.clock ≤ m.created_at) (h2 : m.created_at < db'.clock) :
    db'.WF := by
  obtain ⟨w1, w2, w3, w4, w5, w6⟩ := hwf
  refine ⟨?_, ?_, ?_, ?_, ?_, ?_⟩
  · rw [htasks]; exact w1
  · rw [htasks]; exact w2
  · rw [hcid]; exact w3
  · rw [hcsid]; exact w4
  · rw [hmsgs]
    refine List.pairwise_append.mpr ⟨w5, by simp, ?_⟩
    intro a ha b hb
    simp only [List.mem_singleton] at hb
    subst hb
    exact lt_of_lt_of_le (w6 a ha) h1
  · rw [hmsgs]
    intro x hx
    rcases List.mem_append.mp hx with hx | hx
    · exact lt_trans (lt_of_lt_of_le (w6 x hx) h1) h2
    · simp only [List.mem_singleton] at hx
      subst hx
      exact h2

/-! ## Success-path equations of the message-append operations -/

theorem add_system_message_ok (db : DB) (sid content : String) (c : ChatRec)
    (hc : ChatRepository.get_by_session_id db sid = some c) :
    SessionManager.add_system_message db none sid content =
      (.ok db.nextMessageId,
       { db with
         messages := db.messages ++
           [{ id := db.nextMessageId, chat_id := c.id, agent_id := none,
              role := MessageRole.SYSTEM, content := content, image_refs := none,
              action_data := none, confidence := none, created_at := db.clock }],
         nextMessageId := db.nextMessageId + 1,
         clock := db.clock + 1 }) := by
  simp [SessionManager.add_system_message, runTx, MessageRepository.create,
    Sess.flush, hc]

theorem add_user_message_ok (db : DB) (sid content : String)
    (imgs : Option (List String)) (c : ChatRec)
    (hc : ChatRepository.get_by_session_id db sid = some c) :
    SessionManager.add_user_message db none sid content imgs =
      (.ok db.nextMessageId,
       { db with
         messages := db.messages ++
           [{ id := db.nextMessageId, chat_id := c.id, agent_id := none,
              role := MessageRole.USER, content := content, image_refs := imgs,
              action_data := none, confidence := none, created_at := db.clock }],
         nextMessageId := db.nextMessageId + 1,
         clock := db.clock + 1 }) := by
  simp [SessionManager.add_user_message, runTx, MessageRepository.create,
    Sess.flush, hc]

theorem add_assistant_message_ok_found (db : DB) (faultAt : Option Nat)
    (sid content mn : String)
    (t : AgentType) (ad : Option String) (cf : Option Rat) (c : ChatRec) (a : AgentRec)
    (h0 : faultAt ≠ some 0) (h1 : faultAt ≠ some 1)
    (hc : ChatRepository.get_by_session_id db sid = some c)
    (hcid : ChatRepository.get_by_id db c.id = some c)
    (ha : AgentRepository.get_by_type db t = some a) :
    SessionManager.add_assistant_message db faultAt sid content t mn ad cf =
      (.ok db.nextMessageId,
       { db with
         messages := db.messages ++
           [{ id := db.nextMessageId, chat_id := c.id, agent_id := some a.id,
              role := MessageRole.ASSISTANT, content := content, image_refs := none,
              action_data := ad, confidence := cf, created_at := db.clock }],
         chats := db.chats.map (fun x => if x.id == c.id then
             { c with step_count := c.step_count + 1, updated_at := db.clock + 1 }
           else x),
         nextMessageId := db.nextMessageId + 1,
         clock := db.clock + 2 }) := by
  simp [SessionManager.add_assistant_message, runTx, AgentRepository.get_or_create,
    MessageRepository.create, ChatRepository.increment_step_count,
    ChatRepository.get_by_id, Sess.flush, hc, ha, h0, h1,
    show db.chats.find? (fun x => x.id == c.id) = some c from hcid]

theorem add_assistant_message_ok_new (db : DB) (faultAt : Option Nat)
    (sid content mn : String)
    (t : AgentType) (ad : Option String) (cf : Option Rat) (c : ChatRec)
    (h0 : faultAt ≠ some 0) (h1 : faultAt ≠ some 1) (h2 : faultAt ≠ some 2)
    (hc : ChatRepository.get_by_session_id db sid = some c)
    (hcid : ChatRepository.get_by_id db c.id = some c)
    (ha : AgentRepository.get_by_type db t = none) :
    SessionManager.add_assistant_message db faultAt sid content t mn ad cf =
      (.ok db.nextMessageId,
       { db with
         agents := db.agents ++
           [{ id := db.nextAgentId, name := t.value, agent_type := t,
              model_name := mn, description := none, capabilities := none,
              created_at := db.clock }],
         messages := db.messages ++
           [{ id := db.nextMessageId, chat_id := c.id, agent_id := some db.nextAgentId,
              role := MessageRole.ASSISTANT, content := content, image_refs := none,
              action_data := ad, confidence := cf, created_at := db.clock + 1 }],
         chats := db.chats.map (fun x => if x.id == c.id then
             { c with step_count := c.step_count + 1, updated_at := db.clock + 2 }
           else x),
         nextAgentId := db.nextAgentId + 1,
         nextMessageId := db.nextMessageId + 1,
         clock := db.clock + 3 }) := by
  simp [SessionManager.add_assistant_message, runTx, AgentRepository.get_or_create,
    AgentRepository.create, MessageRepository.create,
    ChatRepository.increment_step_count, ChatRepository.get_by_id,
    Sess.flush, hc, ha, h0, h1, h2,
    show db.chats.find? (fun x => x.id == c.id) = some c from hcid]

/-- What one successful `add_*_message` call does to the store: it
appends exactly one message of the call's role and content to the
session's chat, bumps the step count exactly when the call is an
assistant append, keeps the session resolvable, and preserves
well-formedness. -/
theorem applyOp_spec (db : DB) (sid : String) (c : ChatRec) (op : Op)
    (hwf : db.WF) (hc : ChatRepository.get_by_session_id db sid = some c) :
    ∃ (m : MessageRec) (c' : ChatRec),
      (applyOp sid db op).messages = db.messages ++ [m] ∧
      m.chat_id = c.id ∧ m.role = opRole op ∧ m.content = opContent op ∧
      db.clock ≤ m.created_at ∧
      ChatRepository.get_by_session_id (applyOp sid db op) sid = some c' ∧
      c'.id = c.id ∧ c'.session_id = c.session_id ∧
      c'.step_count = c.step_count + (if opIsAsst op then 1 else 0) ∧
      (applyOp sid db op).WF := by
  have hcm : c ∈ db.chats := (get_by_session_id_mem hc).1
  cases op with
  | sys content =>
    have heq := add_system_message_ok db sid content c hc
    simp only [applyOp, heq]
    refine ⟨_, c, rfl, rfl, rfl, rfl, le_refl _, ?_, rfl, rfl, by simp [opIsAsst], ?_⟩
    · simpa [ChatRepository.get_by_session_id] using hc
    · exact wf_step hwf rfl rfl rfl rfl (le_refl _)
        (show db.clock < db.clock + 1 by omega)
  | user content imgs =>
    have heq := add_user_message_ok db sid content imgs c hc
    simp only [applyOp, heq]
    refine ⟨_, c, rfl, rfl, rfl, rfl, le_refl _, ?_, rfl, rfl, by simp [opIsAsst], ?_⟩
    · simpa [ChatRepository.get_by_session_id] using hc
    · exact wf_step hwf rfl rfl rfl rfl (le_refl _)
        (show db.clock < db.clock + 1 by omega)
  | asst content t mn ad cf =>
    have hcid : ChatRepository.get_by_id db c.id = some c := get_by_id_of_mem hwf.2.2.1 hcm
    cases ha : AgentRepository.get_by_type db t with
    | some a =>
      have heq := add_assistant_message_ok_found db none sid content mn t ad cf c a
        (by simp) (by simp) hc hcid ha
      simp only [applyOp, heq]
      have hproj := map_update_proj
        (l := db.chats) (c := c)
        ({ c with step_count := c.step_count + 1, updated_at := db.clock + 1 })
        hwf.2.2.1 hcm rfl rfl
      refine ⟨_, { c with step_count := c.step_count + 1, updated_at := db.clock + 1 },
        rfl, rfl, rfl, rfl, le_refl _, ?_, rfl, rfl, by simp [opIsAsst], ?_⟩
      · simpa [ChatRepository.get_by_session_id] using
          find?_after_update (c := c)
            ({ c with step_count := c.step_count + 1, updated_at := db.clock + 1 })
            hwf.2.2.1 rfl hc
      · exact wf_step hwf rfl hproj.1 hproj.2 rfl (le_refl _)
          (show db.clock < db.clock + 2 by omega)
    | none =>
      have heq := add_assistant_message_ok_new db none sid content mn t ad cf c
        (by simp) (by simp) (by simp) hc hcid ha
      simp only [applyOp, heq]
      have hproj := map_update_proj
        (l := db.chats) (c := c)
        ({ c with step_count := c.step_count + 1, updated_at := db.clock + 2 })
        hwf.2.2.1 hcm rfl rfl
      refine ⟨_, { c with step_count := c.step_count + 1, updated_at := db.clock + 2 },
        rfl, rfl, rfl, rfl, show db.clock ≤ db.clock + 1 by omega, ?_, rfl, rfl,
        by simp [opIsAsst], ?_⟩
      · simpa [ChatRepository.get_by_session_id] using
          find?_after_update (c := c)
            ({ c with step_count := c.step_count + 1, updated_at := db.clock + 2 })
            hwf.2.2.1 rfl hc
      · exact wf_step hwf rfl hproj.1 hproj.2 rfl
          (show db.clock ≤ db.clock + 1 by omega)
          (show db.clock + 1 < db.clock + 3 by omega)

theorem list_by_chat_of_wf (db : DB) (hwf : db.WF) (cid : Nat) :
    MessageRepository.list_by_chat db cid none
      = db.messages.filter (fun m => m.chat_id == cid) := by
  unfold MessageRepository.list_by_chat
  exact sortByKey_eq_self _ _ ((hwf.2.2.2.2.1).sublist (List.filter_sublist _))

theorem get_context_eq (db : DB) (hwf : db.WF) (sid : String) (c : ChatRec)
    (hc : ChatRepository.get_by_session_id db sid = some c) (inc : Bool) :
    SessionManager.get_context db sid inc =
      ((db.messages.filter (fun m => m.chat_id == c.id)).filter
          (fun m => inc || !(m.role == MessageRole.SYSTEM))).map
        (fun m => { role := m.role.value, content := m.content }) := by
  simp [SessionManager.get_context, hc, MessageRepository.get_context_messages,
    list_by_chat_of_wf db hwf c.id]

theorem renderOps_cons (inc : Bool) (op : Op) (ops : List Op) :
    renderOps inc (op :: ops) =
      (if inc || !(opRole op == MessageRole.SYSTEM)
       then [{ role := (opRole op).value, content := opContent op }]
       else []) ++ renderOps inc ops := by
  by_cases hkeep : (inc || !(opRole op == MessageRole.SYSTEM)) = true
  · simp [renderOps, List.filter_cons, hkeep]
  · simp [renderOps, List.filter_cons, hkeep]

theorem c1_aux (sid : String) (inc : Bool) (ops : List Op) :
    ∀ db c, db.WF → ChatRepository.get_by_session_id db sid = some c →
      SessionManager.get_context (runOps sid ops db) sid inc
        = SessionManager.get_context db sid inc ++ renderOps inc ops := by
  induction ops with
  | nil =>
    intro db c _ _
    simp [runOps, renderOps]
  | cons op ops ih =>
    intro db c hwf hc
    obtain ⟨m, c', hmsgs, hchat, hrole, hcontent, _, hc', hid, _, _, hwf'⟩ :=
      applyOp_spec db sid c op hwf hc
    have hrun : runOps sid (op :: ops) db = runOps sid ops (applyOp sid db op) := rfl
    rw [hrun, ih (applyOp sid db op) c' hwf' hc']
    have hstepctx : SessionManager.get_context (applyOp sid db op) sid inc =
        SessionManager.get_context db sid inc ++
          (if inc || !(opRole op == MessageRole.SYSTEM)
           then [{ role := (opRole op).value, content := opContent op }]
           else []) := by
      rw [get_context_eq (applyOp sid db op) hwf' sid c' hc' inc,
        get_context_eq db hwf sid c hc inc, hmsgs, hid]
      by_cases hkeep : (inc || !(opRole op == MessageRole.SYSTEM)) = true
      · simp [List.filter_append, List.filter_cons, hchat, hrole, hcontent, hkeep]
      · simp [List.filter_append, List.filter_cons, hchat, hrole, hcontent, hkeep]
    rw [hstepctx, renderOps_cons, List.append_assoc]

theorem get_step_count_eq (db : DB) (sid : String) (c : ChatRec)
    (hc : ChatRepository.get_by_session_id db sid = some c) :
    SessionManager.get_step_count db sid = c.step_count := by
  simp [SessionManager.get_step_count, hc]

theorem c2_aux (sid : String) (ops : List Op) :
    ∀ db c, db.WF → ChatRepository.get_by_session_id db sid = some c →
      SessionManager.get_step_count (runOps sid ops db) sid
        = c.step_count + ops.countP opIsAsst := by
  induction ops with
  | nil =>
    intro db c _ hc
    simp [runOps, get_step_count_eq db sid c hc]
  | cons op ops ih =>
    intro db c hwf hc
    obtain ⟨m, c', _, _, _, _, _, hc', _, _, hstep, hwf'⟩ :=
      applyOp_spec db sid c op hwf hc
    have hrun : runOps sid (op :: ops) db = runOps sid ops (applyOp sid db op) := rfl
    rw [hrun, ih (applyOp sid db op) c' hwf' hc', hstep, List.countP_cons]
    cases hval : opIsAsst op
    all_goals simp [hval]
    all_goals omega

/-! ## Claims -/

/-- C1: for every well-formed store and every sequence of
`add_system_message`/`add_user_message`/`add_assistant_message` calls
on one resolvable session, `get_context` afterwards returns the prior
context followed by the appended messages in exactly the order the
calls were issued, with each entry's role and content preserved
verbatim, and with SYSTEM entries filtered out when `include_system`
is false while the relative order of the rest is unchanged. -/
theorem claim_get_context_order (db : DB) (sid : String) (c : ChatRec)
    (ops : List Op) (inc : Bool) (hwf : db.WF)
    (hc : ChatRepository.get_by_session_id db sid = some c) :
    SessionManager.get_context (runOps sid ops db) sid inc
      = SessionManager.get_context db sid inc ++ renderOps inc ops :=
  c1_aux sid inc ops db c hwf hc

/-- Witness for C1 at a concrete store and call sequence. -/
theorem claim_get_context_order_witness :
    dbWithSession.WF ∧
    ChatRepository.get_by_session_id dbWithSession "sess-1" = some chatOne ∧
    SessionManager.get_context
        (runOps "sess-1"
          [Op.sys "be helpful", Op.user "search python repos" none,
           Op.asst "click search box" AgentType.LLAVA "m1" none none]
          dbWithSession) "sess-1" false
      = SessionManager.get_context dbWithSession "sess-1" false ++
        renderOps false
          [Op.sys "be helpful", Op.user "search python repos" none,
           Op.asst "click search box" AgentType.LLAVA "m1" none none] :=
  ⟨by decide, by decide,
   claim_get_context_order dbWithSession "sess-1" chatOne
     [Op.sys "be helpful", Op.user "search python repos" none,
      Op.asst "click search box" AgentType.LLAVA "m1" none none]
     false (by decide) (by decide)⟩

/-- C2: for every well-formed store and any interleaving of
assistant appends with system/user appends on one resolvable session,
`get_step_count` afterwards equals its prior value plus exactly the
number of `add_assistant_message` calls: assistant appends increment
the step count by one each, system/user appends never change it, and
it is never decremented. -/
theorem claim_step_count_exact (db : DB) (sid : String) (c : ChatRec)
    (ops : List Op) (hwf : db.WF)
    (hc : ChatRepository.get_by_session_id db sid = some c) :
    SessionManager.get_step_count (runOps sid ops db) sid
      = SessionManager.get_step_count db sid + ops.countP opIsAsst := by
  rw [get_step_count_eq db sid c hc]
  exact c2_aux sid ops db c hwf hc

/-- Witness for C2: two assistant appends interleaved with system and
user appends yield step count 2. -/
theorem claim_step_count_exact_witness :
    dbWithSession.WF ∧
    ChatRepository.get_by_session_id dbWithSession "sess-1" = some chatOne ∧
    SessionManager.get_step_count
        (runOps "sess-1"
          [Op.sys "s", Op.asst "a1" AgentType.LLAVA "m1" none none,
           Op.user "u" none, Op.asst "a2" AgentType.PHI3 "m2" none none]
          dbWithSession) "sess-1"
      = SessionManager.get_step_count dbWithSession "sess-1" +
        List.countP opIsAsst
          [Op.sys "s", Op.asst "a1" AgentType.LLAVA "m1" none none,
           Op.user "u" none, Op.asst "a2" AgentType.PHI3 "m2" none none] :=
  ⟨by decide, by decide,
   claim_step_count_exact dbWithSession "sess-1" chatOne
     [Op.sys "s", Op.asst "a1" AgentType.LLAVA "m1" none none,
      Op.user "u" none, Op.asst "a2" AgentType.PHI3 "m2" none none]
     (by decide) (by decide)⟩

/-- C4: `get_or_create_session` on an existing session returns that
session's id unchanged and leaves the whole store — in particular the
existing chat and its task binding — untouched, for every supplied
`task_id`, every UUID draw and every fault oracle. -/
theorem claim_get_or_create_session_idempotent (db : DB) (sid : String)
    (c : ChatRec) (faultAt : Option Nat) (task_id taskUuid chatUuid : String)
    (hc : ChatRepository.get_by_session_id db sid = some c) :
    SessionManager.get_or_create_session db faultAt sid task_id taskUuid chatUuid
      = (.ok sid, db) := by
  have hsid : c.session_id = sid := (get_by_session_id_mem hc).2
  simp [SessionManager.get_or_create_session, runTx, hc, hsid]

/-- Witness for C4 at a concrete store. -/
theorem claim_get_or_create_session_idempotent_witness :
    ChatRepository.get_by_session_id dbWithSession "sess-1" = some chatOne ∧
    SessionManager.get_or_create_session dbWithSession (some 0) "sess-1"
        "some-other-task" "fresh-uuid" "fresh-uuid-2"
      = (.ok "sess-1", dbWithSession) :=
  ⟨by decide,
   claim_get_or_create_session_idempotent dbWithSession "sess-1" chatOne
     (some 0) "some-other-task" "fresh-uuid" "fresh-uuid-2" (by decide)⟩

/-- Success-path equation of `get_or_create_session` when neither the
session nor the task resolves: a placeholder task (external id = the
fresh UUID draw, the supplied `task_id` only embedded in the title)
and the chat bound to it are created; an empty supplied `session_id`
is falsy in Python, so the chat then stores and returns the fresh
`chatUuid` draw instead. -/
theorem gocs_autocreate_eq (db : DB) (sid task_id taskUuid chatUuid : String)
    (hsid : ChatRepository.get_by_session_id db sid = none)
    (htid : TaskRepository.get_by_external_id db task_id = none) :
    SessionManager.get_or_create_session db none sid task_id taskUuid chatUuid =
      (.ok (if sid = "" then chatUuid else sid),
       { db with
         tasks := db.tasks ++
           [{ id := db.nextTaskId, external_id := taskUuid,
              title := "Task " ++ task_id, description := some "Auto-created task",
              website_url := none, status := TaskStatus.PENDING,
              task_metadata := none, created_at := db.clock,
              updated_at := db.clock, completed_at := none }],
         chats := db.chats ++
           [{ id := db.nextChatId, session_id := if sid = "" then chatUuid else sid,
              task_id := db.nextTaskId,
              step_count := 0, context := none, is_active := true,
              created_at := db.clock + 1, updated_at := db.clock + 1 }],
         nextTaskId := db.nextTaskId + 1,
         nextChatId := db.nextChatId + 1,
         clock := db.clock + 2 }) := by
  simp [SessionManager.get_or_create_session, runTx, TaskRepository.create,
    ChatRepository.create, strOrDefault, Sess.flush, hsid, htid]

/-- C5 (amended): when neither the session id nor the supplied task id
resolves, `get_or_create_session` auto-creates a placeholder task,
creates the chat bound to it and returns successfully — returning the
supplied session id, except that an empty session id is falsy in
Python and is replaced by a freshly drawn UUID, which is stored and
returned instead; and for every fault oracle it never raises
`TaskNotFound`. -/
theorem claim_gocs_never_task_not_found (db : DB)
    (sid task_id taskUuid chatUuid : String)
    (hsid : ChatRepository.get_by_session_id db sid = none)
    (htid : TaskRepository.get_by_external_id db task_id = none) :
    ((SessionManager.get_or_create_session db none sid task_id taskUuid
        chatUuid).1
        = .ok (if sid = "" then chatUuid else sid) ∧
     (SessionManager.get_or_create_session db none sid task_id taskUuid
        chatUuid).2.tasks
        = db.tasks ++
          [{ id := db.nextTaskId, external_id := taskUuid,
             title := "Task " ++ task_id, description := some "Auto-created task",
             website_url := none, status := TaskStatus.PENDING,
             task_metadata := none, created_at := db.clock,
             updated_at := db.clock, completed_at := none }] ∧
     (SessionManager.get_or_create_session db none sid task_id taskUuid
        chatUuid).2.chats
        = db.chats ++
          [{ id := db.nextChatId, session_id := if sid = "" then chatUuid else sid,
             task_id := db.nextTaskId, step_count := 0,
             context := none, is_active := true,
             created_at := db.clock + 1, updated_at := db.clock + 1 }]) ∧
    (∀ (faultAt : Option Nat) (x : String),
      (SessionManager.get_or_create_session db faultAt sid task_id taskUuid
          chatUuid).1
        ≠ .error (.taskNotFound x)) := by
  constructor
  · rw [gocs_autocreate_eq db sid task_id taskUuid chatUuid hsid htid]
    exact ⟨rfl, rfl, rfl⟩
  · intro faultAt x
    by_cases h0 : faultAt = some 0
    · simp [SessionManager.get_or_create_session, runTx, TaskRepository.create,
        ChatRepository.create, Sess.flush, hsid, htid, h0]
    · by_cases h1 : faultAt = some 1
      · simp [SessionManager.get_or_create_session, runTx, TaskRepository.create,
          ChatRepository.create, Sess.flush, hsid, htid, h0, h1]
      · simp [SessionManager.get_or_create_session, runTx, TaskRepository.create,
          ChatRepository.create, Sess.flush, hsid, htid, h0, h1]

/-- Counterexample to C5 as stated: at the unresolvable empty session
id, the operation succeeds but stores and returns the fresh UUID draw,
not the supplied session id. -/
theorem claim_gocs_never_task_not_found_counterexample :
    ChatRepository.get_by_session_id dbWithSession "" = none ∧
    TaskRepository.get_by_external_id dbWithSession "ghost" = none ∧
    (SessionManager.get_or_create_session dbWithSession none "" "ghost" "u-task"
        "u-chat").1 = .ok "u-chat" ∧
    (SessionManager.get_or_create_session dbWithSession none "" "ghost" "u-task"
        "u-chat").1 ≠ .ok "" := by
  refine ⟨by decide, by decide, by rfl, ?_⟩
  rw [show (SessionManager.get_or_create_session dbWithSession none "" "ghost"
      "u-task" "u-chat").1 = Except.ok "u-chat" from rfl]
  simp

/-- Witness for C5 at a concrete store with a nonempty session id. -/
theorem claim_gocs_never_task_not_found_witness :
    ChatRepository.get_by_session_id dbWithSession "sess-2" = none ∧
    TaskRepository.get_by_external_id dbWithSession "task-B" = none ∧
    ((SessionManager.get_or_create_session dbWithSession none "sess-2" "task-B"
        "uuid-77" "uuid-78").1 = .ok "sess-2" ∧
     (SessionManager.get_or_create_session dbWithSession none "sess-2" "task-B"
        "uuid-77" "uuid-78").2.tasks
        = dbWithSession.tasks ++
          [{ id := dbWithSession.nextTaskId, external_id := "uuid-77",
             title := "Task " ++ "task-B", description := some "Auto-created task",
             website_url := none, status := TaskStatus.PENDING,
             task_metadata := none, created_at := dbWithSession.clock,
             updated_at := dbWithSession.clock, completed_at := none }] ∧
     (SessionManager.get_or_create_session dbWithSession none "sess-2" "task-B"
        "uuid-77" "uuid-78").2.chats
        = dbWithSession.chats ++
          [{ id := dbWithSession.nextChatId, session_id := "sess-2",
             task_id := dbWithSession.nextTaskId, step_count := 0,
             context := none, is_active := true,
             created_at := dbWithSession.clock + 1,
             updated_at := dbWithSession.clock + 1 }]) ∧
    (∀ (faultAt : Option Nat) (x : String),
      (SessionManager.get_or_create_session dbWithSession faultAt "sess-2"
          "task-B" "uuid-77" "uuid-78").1 ≠ .error (.taskNotFound x)) :=
  ⟨by decide, by decide,
   (claim_gocs_never_task_not_found dbWithSession "sess-2" "task-B" "uuid-77"
     "uuid-78" (by decide) (by decide)).1,
   (claim_gocs_never_task_not_found dbWithSession "sess-2" "task-B" "uuid-77"
     "uuid-78" (by decide) (by decide)).2⟩

/-- C6: `create_session` raises `TaskNotFound` iff the task id does
not resolve (otherwise it creates a chat bound to that task and
returns the supplied session id, or the UUID draw when none is
supplied); and each of the three message appends raises
`SessionNotFound` iff the session id does not resolve. -/
theorem claim_create_session_and_append_errors (db : DB)
    (task_id sid content mn : String) (sidOpt : Option String) (uuid : String)
    (ctx : Option String) (imgs : Option (List String)) (ad : Option String)
    (t : AgentType) (cf : Option Rat) :
    ((SessionManager.create_session db none task_id sidOpt uuid ctx).1
        = .error (.taskNotFound task_id)
      ↔ TaskRepository.get_by_external_id db task_id = none) ∧
    (∀ tk, TaskRepository.get_by_external_id db task_id = some tk →
      SessionManager.create_session db none task_id sidOpt uuid ctx =
        (.ok (strOrDefault sidOpt uuid),
         { db with
           chats := db.chats ++
             [{ id := db.nextChatId, session_id := strOrDefault sidOpt uuid,
                task_id := tk.id, step_count := 0, context := ctx,
                is_active := true, created_at := db.clock,
                updated_at := db.clock }],
           nextChatId := db.nextChatId + 1, clock := db.clock + 1 })) ∧
    ((SessionManager.add_system_message db none sid content).1
        = .error (.sessionNotFound sid)
      ↔ ChatRepository.get_by_session_id db sid = none) ∧
    ((SessionManager.add_user_message db none sid content imgs).1
        = .error (.sessionNotFound sid)
      ↔ ChatRepository.get_by_session_id db sid = none) ∧
    ((SessionManager.add_assistant_message db none sid content t mn ad cf).1
        = .error (.sessionNotFound sid)
      ↔ ChatRepository.get_by_session_id db sid = none) := by
  refine ⟨?_, ?_, ?_, ?_, ?_⟩
  · cases h : TaskRepository.get_by_external_id db task_id with
    | none =>
      simp [SessionManager.create_session, runTx, h]
    | some tk =>
      simp [SessionManager.create_session, runTx, ChatRepository.create,
        Sess.flush, h]
  · intro tk h
    simp [SessionManager.create_session, runTx, ChatRepository.create,
      Sess.flush, h, strOrDefault_idem]
  · cases hc : ChatRepository.get_by_session_id db sid with
    | none => simp [SessionManager.add_system_message, runTx, hc]
    | some c =>
      simp [SessionManager.add_system_message, runTx,
        MessageRepository.create, Sess.flush, hc]
  · cases hc : ChatRepository.get_by_session_id db sid with
    | none => simp [SessionManager.add_user_message, runTx, hc]
    | some c =>
      simp [SessionManager.add_user_message, runTx,
        MessageRepository.create, Sess.flush, hc]
  · cases hc : ChatRepository.get_by_session_id db sid with
    | none => simp [SessionManager.add_assistant_message, runTx, hc]
    | some c =>
      cases hg : db.chats.find? (fun x => x.id == c.id) with
      | none =>
        cases ha : AgentRepository.get_by_type db t with
        | some a =>
          simp [SessionManager.add_assistant_message, runTx,
            AgentRepository.get_or_create, MessageRepository.create,
            ChatRepository.increment_step_count, ChatRepository.get_by_id,
            Sess.flush, hc, ha, hg]
        | none =>
          simp [SessionManager.add_assistant_message, runTx,
            AgentRepository.get_or_create, AgentRepository.create,
            MessageRepository.create, ChatRepository.increment_step_count,
            ChatRepository.get_by_id, Sess.flush, hc, ha, hg]
      | some c0 =>
        cases ha : AgentRepository.get_by_type db t with
        | some a =>
          simp [SessionManager.add_assistant_message, runTx,
            AgentRepository.get_or_create, MessageRepository.create,
            ChatRepository.increment_step_count, ChatRepository.get_by_id,
            Sess.flush, hc, ha, hg]
        | none =>
          simp [SessionManager.add_assistant_message, runTx,
            AgentRepository.get_or_create, AgentRepository.create,
            MessageRepository.create, ChatRepository.increment_step_count,
            ChatRepository.get_by_id, Sess.flush, hc, ha, hg]

/-- Witness for C6: on a concrete store, a resolving task id gives a
successful chat creation with a generated session id. -/
theorem claim_create_session_and_append_errors_witness :
    TaskRepository.get_by_external_id dbWithSession "task-A" =
      some { id := 1, external_id := "task-A", title := "Test GitHub search",
             description := none, website_url := some "https://github.com",
             status := TaskStatus.PENDING, task_metadata := none,
             created_at := 0, updated_at := 0, completed_at := none } ∧
    SessionManager.create_session dbWithSession none "task-A" none "uuid-9" none =
      (.ok "uuid-9",
       { dbWithSession with
         chats := dbWithSession.chats ++
           [{ id := dbWithSession.nextChatId, session_id := "uuid-9",
              task_id := 1, step_count := 0, context := none,
              is_active := true, created_at := dbWithSession.clock,
              updated_at := dbWithSession.clock }],
         nextChatId := dbWithSession.nextChatId + 1,
         clock := dbWithSession.clock + 1 }) :=
  ⟨by decide,
   (claim_create_session_and_append_errors dbWithSession "task-A" "s" "c" "m"
       none "uuid-9" none none none AgentType.LLAVA none).2.1
     { id := 1, external_id := "task-A", title := "Test GitHub search",
       description := none, website_url := some "https://github.com",
       status := TaskStatus.PENDING, task_metadata := none,
       created_at := 0, updated_at := 0, completed_at := none }
     (by decide)⟩

theorem task_get_by_id_of_mem {db : DB} (h : (db.tasks.map TaskRec.id).Nodup)
    {t : TaskRec} (ht : t ∈ db.tasks) :
    TaskRepository.get_by_id db t.id = some t := by
  unfold TaskRepository.get_by_id
  cases hfind : db.tasks.find? (fun x => x.id == t.id) with
  | none =>
    exfalso
    have := List.find?_eq_none.mp hfind t ht
    simp at this
  | some x =>
    have hxmem := List.mem_of_find?_eq_some hfind
    have hxid : x.id = t.id := by simpa using List.find?_some hfind
    rw [List.inj_on_of_nodup_map h hxmem ht hxid]

/-- C7: `update_task_status` returns a not-found signal (`false`, not
an exception) and changes nothing when the task id does not resolve;
when it resolves, it sets the status and stamps `completed_at` with
the current time exactly when the new status is COMPLETED, leaving
`completed_at` untouched for every other status value. -/
theorem claim_update_task_status (db : DB) (task_id : String)
    (status : TaskStatus) (hwf : db.WF) :
    (TaskRepository.get_by_external_id db task_id = none →
      SessionManager.update_task_status db none task_id status = (.ok false, db)) ∧
    (∀ tk, TaskRepository.get_by_external_id db task_id = some tk →
      SessionManager.update_task_status db none task_id status =
        (.ok true,
         { db with
           tasks := db.tasks.map (fun x => if x.id == tk.id then
               { tk with
                 status := status,
                 completed_at := if status = TaskStatus.COMPLETED then some db.clock
                                 else tk.completed_at,
                 updated_at := db.clock }
             else x),
           clock := db.clock + 1 })) := by
  constructor
  · intro h
    simp [SessionManager.update_task_status, runTx, h]
  · intro tk h
    have htk : TaskRepository.get_by_id db tk.id = some tk :=
      task_get_by_id_of_mem hwf.1 (List.mem_of_find?_eq_some h)
    simp [SessionManager.update_task_status, runTx, TaskRepository.update_status,
      TaskRepository.get_by_id, Sess.flush, h,
      show db.tasks.find? (fun x => x.id == tk.id) = some tk from htk]

/-- Witness for C7: an unknown task id yields the not-found signal
and an unchanged store. -/
theorem claim_update_task_status_witness :
    dbWithSession.WF ∧
    TaskRepository.get_by_external_id dbWithSession "task-Z" = none ∧
    SessionManager.update_task_status dbWithSession none "task-Z"
        TaskStatus.COMPLETED = (.ok false, dbWithSession) :=
  ⟨by decide, by decide,
   (claim_update_task_status dbWithSession "task-Z" TaskStatus.COMPLETED
     (by decide)).1 (by decide)⟩

theorem runTx_rollback {α : Type} (db : DB) (faultAt : Option Nat)
    (body : Sess → Except Err (α × Sess)) (e : Err)
    (h : (runTx db faultAt body).1 = .error e) :
    (runTx db faultAt body).2 = db := by
  unfold runTx at h ⊢
  cases hb : body { db := db, faultAt := faultAt, flushes := 0 } with
  | ok v => rw [hb] at h; simp at h
  | error e2 => rfl

/-- C3: `add_assistant_message` is atomic. If the operation reports an
error — the session does not resolve, or any flush inside the
transaction raises a storage failure — the committed store is exactly
the original one: neither the message nor the step-count increment
persists. If it reports success, the committed store holds exactly one
new ASSISTANT message on the session's chat together with that chat's
step count incremented by one. -/
theorem claim_add_assistant_atomic (db : DB) (faultAt : Option Nat)
    (sid content mn : String) (t : AgentType) (ad : Option String)
    (cf : Option Rat) (hwf : db.WF) :
    (∀ e, (SessionManager.add_assistant_message db faultAt sid content t mn ad cf).1
        = .error e →
      (SessionManager.add_assistant_message db faultAt sid content t mn ad cf).2 = db) ∧
    (∀ mid, (SessionManager.add_assistant_message db faultAt sid content t mn ad cf).1
        = .ok mid →
      ∃ c m c',
        ChatRepository.get_by_session_id db sid = some c ∧
        (SessionManager.add_assistant_message db faultAt sid content t mn ad cf).2.messages
          = db.messages ++ [m] ∧
        m.role = MessageRole.ASSISTANT ∧ m.chat_id = c.id ∧ m.content = content ∧
        ChatRepository.get_by_session_id
            (SessionManager.add_assistant_message db faultAt sid content t mn ad cf).2
            sid
          = some c' ∧
        c'.id = c.id ∧ c'.step_count = c.step_count + 1) := by
  constructor
  · intro e he
    exact runTx_rollback db faultAt _ e he
  · intro mid hok
    cases hc : ChatRepository.get_by_session_id db sid with
    | none =>
      exfalso
      rw [show SessionManager.add_assistant_message db faultAt sid content t mn ad cf
          = (.error (.sessionNotFound sid), db) by
        simp [SessionManager.add_assistant_message, runTx, hc]] at hok
      simp at hok
    | some c =>
      have hcm : c ∈ db.chats := (get_by_session_id_mem hc).1
      have hcid : ChatRepository.get_by_id db c.id = some c :=
        get_by_id_of_mem hwf.2.2.1 hcm
      cases ha : AgentRepository.get_by_type db t with
      | some a =>
        by_cases h0 : faultAt = some 0
        · exfalso
          rw [show SessionManager.add_assistant_message db faultAt sid content t mn ad cf
              = (.error .storageFailure, db) by
            simp [SessionManager.add_assistant_message, runTx,
              AgentRepository.get_or_create, MessageRepository.create,
              Sess.flush, hc, ha, h0]] at hok
          simp at hok
        · by_cases h1 : faultAt = some 1
          · exfalso
            rw [show SessionManager.add_assistant_message db faultAt sid content t mn ad cf
                = (.error .storageFailure, db) by
              simp [SessionManager.add_assistant_message, runTx,
                AgentRepository.get_or_create, MessageRepository.create,
                ChatRepository.increment_step_count, ChatRepository.get_by_id,
                Sess.flush, hc, ha, h0, h1,
                show db.chats.find? (fun x => x.id == c.id) = some c from hcid]] at hok
            simp at hok
          · have heq := add_assistant_message_ok_found db faultAt sid content mn t ad cf
              c a h0 h1 hc hcid ha
            rw [heq]
            refine ⟨c, _,
              (⟨c.id, c.session_id, c.task_id, c.step_count + 1, c.context,
                c.is_active, c.created_at, db.clock + 1⟩ : ChatRec),
              rfl, rfl, rfl, rfl, rfl, ?_, rfl, rfl⟩
            simpa [ChatRepository.get_by_session_id] using
              find?_after_update (c := c)
                (⟨c.id, c.session_id, c.task_id, c.step_count + 1, c.context,
                  c.is_active, c.created_at, db.clock + 1⟩ : ChatRec)
                hwf.2.2.1 rfl hc
      | none =>
        by_cases h0 : faultAt = some 0
        · exfalso
          rw [show SessionManager.add_assistant_message db faultAt sid content t mn ad cf
              = (.error .storageFailure, db) by
            simp [SessionManager.add_assistant_message, runTx,
              AgentRepository.get_or_create, AgentRepository.create,
              Sess.flush, hc, ha, h0]] at hok
          simp at hok
        · by_cases h1 : faultAt = some 1
          · exfalso
            rw [show SessionManager.add_assistant_message db faultAt sid content t mn ad cf
                = (.error .storageFailure, db) by
              simp [SessionManager.add_assistant_message, runTx,
                AgentRepository.get_or_create, AgentRepository.create,
                MessageRepository.create, Sess.flush, hc, ha, h0, h1]] at hok
            simp at hok
          · by_cases h2 : faultAt = some 2
            · exfalso
              rw [show SessionManager.add_assistant_message db faultAt sid content t mn ad cf
                  = (.error .storageFailure, db) by
                simp [SessionManager.add_assistant_message, runTx,
                  AgentRepository.get_or_create, AgentRepository.create,
                  MessageRepository.create, ChatRepository.increment_step_count,
                  ChatRepository.get_by_id, Sess.flush, hc, ha, h0, h1, h2,
                  show db.chats.find? (fun x => x.id == c.id) = some c from hcid]] at hok
              simp at hok
            · have heq := add_assistant_message_ok_new db faultAt sid content mn t ad cf
                c h0 h1 h2 hc hcid ha
              rw [heq]
              refine ⟨c, _,
                (⟨c.id, c.session_id, c.task_id, c.step_count + 1, c.context,
                  c.is_active, c.created_at, db.clock + 2⟩ : ChatRec),
                rfl, rfl, rfl, rfl, rfl, ?_, rfl, rfl⟩
              simpa [ChatRepository.get_by_session_id] using
                find?_after_update (c := c)
                  (⟨c.id, c.session_id, c.task_id, c.step_count + 1, c.context,
                    c.is_active, c.created_at, db.clock + 2⟩ : ChatRec)
                  hwf.2.2.1 rfl hc

/-- Witness for C3: with an injected failure of the step-count flush,
the whole append rolls back and the store is unchanged. -/
theorem claim_add_assistant_atomic_witness :
    dbWithSession.WF ∧
    (SessionManager.add_assistant_message dbWithSession (some 2) "sess-1" "reply"
        AgentType.DEEPSEEK_R1 "m1" none none).1 = .error .storageFailure ∧
    (SessionManager.add_assistant_message dbWithSession (some 2) "sess-1" "reply"
        AgentType.DEEPSEEK_R1 "m1" none none).2 = dbWithSession :=
  ⟨by decide, by rfl,
   (claim_add_assistant_atomic dbWithSession (some 2) "sess-1" "reply" "m1"
       AgentType.DEEPSEEK_R1 none none (by decide)).1
     .storageFailure (by rfl)⟩

/-- C8: `AgentRepository.get_or_create` is idempotent keyed by agent
type — a second call with the same type (any model name) returns the
same agent record and leaves the session untouched, creating no
duplicate row — and `add_assistant_message` links its message to
exactly the agent record that `get_or_create` resolves or creates for
the given agent type and model name. -/
theorem claim_agent_get_or_create :
    (∀ (s : Sess) (t : AgentType) (mn mn2 : String) (a : AgentRec) (s1 : Sess),
      AgentRepository.get_or_create s t mn = .ok (a, s1) →
      AgentRepository.get_or_create s1 t mn2 = .ok (a, s1)) ∧
    (∀ (db : DB) (sid content mn : String) (t : AgentType) (ad : Option String)
        (cf : Option Rat) (c : ChatRec) (a : AgentRec) (s1 : Sess),
      db.WF → ChatRepository.get_by_session_id db sid = some c →
      AgentRepository.get_or_create ⟨db, none, 0⟩ t mn = .ok (a, s1) →
      ∃ m : MessageRec,
        (SessionManager.add_assistant_message db none sid content t mn ad cf).2.messages
          = db.messages ++ [m] ∧ m.agent_id = some a.id) := by
  constructor
  · intro s t mn mn2 a s1 h
    cases h0 : AgentRepository.get_by_type s.db t with
    | some a0 =>
      simp [AgentRepository.get_or_create, h0] at h
      obtain ⟨ha, hs⟩ := h
      subst ha
      subst hs
      simp [AgentRepository.get_or_create, h0]
    | none =>
      by_cases hf : s.faultAt = some s.flushes
      · simp [AgentRepository.get_or_create, AgentRepository.create,
          Sess.flush, h0, hf] at h
      · simp [AgentRepository.get_or_create, AgentRepository.create,
          Sess.flush, h0, hf] at h
        obtain ⟨ha, hs⟩ := h
        subst ha
        subst hs
        simp [AgentRepository.get_or_create, AgentRepository.get_by_type,
          List.find?_append,
          show s.db.agents.find? (fun x => x.agent_type == t) = none from h0]
  · intro db sid content mn t ad cf c a s1 hwf hc h
    have hcm : c ∈ db.chats := (get_by_session_id_mem hc).1
    have hcid : ChatRepository.get_by_id db c.id = some c :=
      get_by_id_of_mem hwf.2.2.1 hcm
    cases ha : AgentRepository.get_by_type db t with
    | some a0 =>
      simp [AgentRepository.get_or_create, ha] at h
      obtain ⟨ha0, _⟩ := h
      subst ha0
      have heq := add_assistant_message_ok_found db none sid content mn t ad cf c a0
        (by simp) (by simp) hc hcid ha
      exact ⟨_, by rw [heq], rfl⟩
    | none =>
      simp [AgentRepository.get_or_create, AgentRepository.create,
        Sess.flush, ha] at h
      obtain ⟨ha0, _⟩ := h
      have heq := add_assistant_message_ok_new db none sid content mn t ad cf c
        (by simp) (by simp) (by simp) hc hcid ha
      refine ⟨_, by rw [heq], ?_⟩
      rw [← ha0]

/-- Witness for C8: creating the LLAVA agent once, a second
`get_or_create` with the same type but another model name returns the
same row and an unchanged session. -/
theorem claim_agent_get_or_create_witness :
    AgentRepository.get_or_create ⟨dbWithSession, none, 0⟩ AgentType.LLAVA "m1"
      = .ok (agentOne, sessAfterAgent) ∧
    AgentRepository.get_or_create sessAfterAgent AgentType.LLAVA "m2"
      = .ok (agentOne, sessAfterAgent) ∧
    (dbWithSession.WF ∧
     ChatRepository.get_by_session_id dbWithSession "sess-1" = some chatOne ∧
     ∃ m : MessageRec,
       (SessionManager.add_assistant_message dbWithSession none "sess-1" "go"
           AgentType.LLAVA "m1" none none).2.messages
         = dbWithSession.messages ++ [m] ∧ m.agent_id = some agentOne.id) :=
  ⟨by rfl,
   claim_agent_get_or_create.1 ⟨dbWithSession, none, 0⟩ AgentType.LLAVA "m1" "m2"
     agentOne sessAfterAgent (by rfl),
   by decide, by decide,
   claim_agent_get_or_create.2 dbWithSession "sess-1" "go" "m1" AgentType.LLAVA
     none none chatOne agentOne sessAfterAgent (by decide) (by decide) (by rfl)⟩

/-- C9: on a well-formed store, `TaskRepository.delete` returns false
and changes nothing when the task does not exist, and when it exists
it returns true and removes the task together with all of its chats
and all messages of those chats, so that afterwards none of them is
retrievable: the task's external id no longer resolves, `list_by_task`
is empty, each of its chats' session ids no longer resolves, and
`list_by_chat` of each of those chats is empty. -/
theorem claim_task_delete_cascades (db : DB) (tid : Nat) (hwf : db.WF) :
    (TaskRepository.get_by_id db tid = none →
      TaskRepository.delete db tid = (false, db)) ∧
    (∀ t, TaskRepository.get_by_id db tid = some t →
      (TaskRepository.delete db tid).1 = true ∧
      TaskRepository.get_by_external_id (TaskRepository.delete db tid).2
          t.external_id = none ∧
      ChatRepository.list_by_task (TaskRepository.delete db tid).2 t.id false = [] ∧
      (∀ c ∈ db.chats, c.task_id = t.id →
        ChatRepository.get_by_session_id (TaskRepository.delete db tid).2
            c.session_id = none ∧
        MessageRepository.list_by_chat (TaskRepository.delete db tid).2 c.id none
          = [])) := by
  constructor
  · intro h
    simp [TaskRepository.delete, h]
  · intro t ht
    have htm : t ∈ db.tasks := List.mem_of_find?_eq_some ht
    refine ⟨by simp [TaskRepository.delete, ht], ?_, ?_, ?_⟩
    · simp only [TaskRepository.delete, ht, TaskRepository.get_by_external_id]
      refine List.find?_eq_none.mpr ?_
      intro x hx
      obtain ⟨hxmem, hxkeep⟩ := List.mem_filter.mp hx
      intro hbeq
      have hxeid : x.external_id = t.external_id := by simpa using hbeq
      have hxt : x = t := List.inj_on_of_nodup_map hwf.2.1 hxmem htm hxeid
      subst hxt
      simp at hxkeep
    · simp only [TaskRepository.delete, ht, ChatRepository.list_by_task]
      have hnil : (db.chats.filter (fun c => !(c.task_id == t.id))).filter
          (fun c => c.task_id == t.id) = [] := by
        refine List.filter_eq_nil_iff.mpr ?_
        intro c hcmem
        obtain ⟨_, hckeep⟩ := List.mem_filter.mp hcmem
        simpa using hckeep
      simp [hnil, sortByKeyDesc]
    · intro c hcmem hctask
      constructor
      · simp only [TaskRepository.delete, ht, ChatRepository.get_by_session_id]
        refine List.find?_eq_none.mpr ?_
        intro x hx
        obtain ⟨hxmem, hxkeep⟩ := List.mem_filter.mp hx
        intro hbeq
        have hxsid : x.session_id = c.session_id := by simpa using hbeq
        have hxc : x = c := List.inj_on_of_nodup_map hwf.2.2.2.1 hxmem hcmem hxsid
        subst hxc
        rw [hctask] at hxkeep
        simp at hxkeep
      · have hnil : (db.messages.filter (fun m =>
            !(((db.chats.filter (fun x => x.task_id == t.id)).map
                ChatRec.id).contains m.chat_id))).filter
              (fun m => m.chat_id == c.id) = [] := by
          refine List.filter_eq_nil_iff.mpr ?_
          intro m hmmem
          obtain ⟨_, hmkeep⟩ := List.mem_filter.mp hmmem
          intro hbeq
          have hmc : m.chat_id = c.id := by simpa using hbeq
          have hcdead : c.id ∈ (db.chats.filter
              (fun x => x.task_id == t.id)).map ChatRec.id := by
            refine List.mem_map.mpr ⟨c, ?_, rfl⟩
            exact List.mem_filter.mpr ⟨hcmem, by simp [hctask]⟩
          have hcont : ((db.chats.filter (fun x => x.task_id == t.id)).map
              ChatRec.id).contains c.id = true := by
            simpa using hcdead
          rw [hmc, hcont] at hmkeep
          simp at hmkeep
        have hmsgs : (TaskRepository.delete db tid).2.messages
            = db.messages.filter (fun m =>
                !(((db.chats.filter (fun x => x.task_id == t.id)).map
                    ChatRec.id).contains m.chat_id)) := by
          simp [TaskRepository.delete, ht]
        show sortByKey MessageRec.created_at
            ((TaskRepository.delete db tid).2.messages.filter
              (fun m => m.chat_id == c.id)) = []
        rw [hmsgs, hnil]
        rfl

/-- Witness for C9: deleting the only task of a concrete store with a
session and a message removes everything retrievably. -/
theorem claim_task_delete_cascades_witness :
    dbWithMsg.WF ∧
    TaskRepository.get_by_id dbWithMsg 1 = some taskOne ∧
    ((TaskRepository.delete dbWithMsg 1).1 = true ∧
      TaskRepository.get_by_external_id (TaskRepository.delete dbWithMsg 1).2
          taskOne.external_id = none ∧
      ChatRepository.list_by_task (TaskRepository.delete dbWithMsg 1).2
          taskOne.id false = [] ∧
      (∀ c ∈ dbWithMsg.chats, c.task_id = taskOne.id →
        ChatRepository.get_by_session_id (TaskRepository.delete dbWithMsg 1).2
            c.session_id = none ∧
        MessageRepository.list_by_chat (TaskRepository.delete dbWithMsg 1).2
            c.id none = [])) :=
  ⟨by decide, by decide,
   (claim_task_delete_cascades dbWithMsg 1 (by decide)).2 taskOne (by decide)⟩

/-- C10: when `get_or_create_session` auto-creates a placeholder task,
the placeholder's external id is the fresh UUID draw, not the supplied
`task_id` (which only appears in the title) — so the supplied task id
still resolves to no task afterwards, and a later call with the same
unresolved task id but a different session id creates a second,
distinct placeholder task. `v1`/`v2` are the chat-side UUID draws of
the two calls; `v1 ≠ sid2` encodes that a fresh draw does not collide
with the second session id. -/
theorem claim_placeholder_task_fresh (db : DB) (sid sid2 tid u1 u2 v1 v2 : String)
    (hsid : ChatRepository.get_by_session_id db sid = none)
    (hsid2 : ChatRepository.get_by_session_id db sid2 = none)
    (hne : sid2 ≠ sid) (hv1 : v1 ≠ sid2)
    (htid : TaskRepository.get_by_external_id db tid = none)
    (hu1 : u1 ≠ tid) (hu2 : u2 ≠ tid) :
    SessionManager.get_task
        (SessionManager.get_or_create_session db none sid tid u1 v1).2 tid
      = none ∧
    (SessionManager.get_or_create_session db none sid tid u1 v1).2.tasks
      = db.tasks ++
        [{ id := db.nextTaskId, external_id := u1, title := "Task " ++ tid,
           description := some "Auto-created task", website_url := none,
           status := TaskStatus.PENDING, task_metadata := none,
           created_at := db.clock, updated_at := db.clock,
           completed_at := none }] ∧
    (SessionManager.get_or_create_session
        (SessionManager.get_or_create_session db none sid tid u1 v1).2
        none sid2 tid u2 v2).2.tasks
      = db.tasks ++
        [{ id := db.nextTaskId, external_id := u1, title := "Task " ++ tid,
           description := some "Auto-created task", website_url := none,
           status := TaskStatus.PENDING, task_metadata := none,
           created_at := db.clock, updated_at := db.clock,
           completed_at := none },
         { id := db.nextTaskId + 1, external_id := u2, title := "Task " ++ tid,
           description := some "Auto-created task", website_url := none,
           status := TaskStatus.PENDING, task_metadata := none,
           created_at := db.clock + 2, updated_at := db.clock + 2,
           completed_at := none }] ∧
    ({ id := db.nextTaskId, external_id := u1, title := "Task " ++ tid,
       description := some "Auto-created task", website_url := none,
       status := TaskStatus.PENDING, task_metadata := none,
       created_at := db.clock, updated_at := db.clock,
       completed_at := none } : TaskRec)
      ≠ { id := db.nextTaskId + 1, external_id := u2, title := "Task " ++ tid,
          description := some "Auto-created task", website_url := none,
          status := TaskStatus.PENDING, task_metadata := none,
          created_at := db.clock + 2, updated_at := db.clock + 2,
          completed_at := none } ∧
    SessionManager.get_task
        (SessionManager.get_or_create_session
          (SessionManager.get_or_create_session db none sid tid u1 v1).2
          none sid2 tid u2 v2).2 tid = none := by
  have h1 := gocs_autocreate_eq db sid tid u1 v1 hsid htid
  have htid1 : TaskRepository.get_by_external_id
      (SessionManager.get_or_create_session db none sid tid u1 v1).2 tid
      = none := by
    rw [h1]
    simp [TaskRepository.get_by_external_id, List.find?_append,
      show db.tasks.find? (fun x => x.external_id == tid) = none from htid, hu1]
  have hchat1 : ((if sid = "" then v1 else sid) == sid2) = false := by
    by_cases hse : sid = ""
    · simp [hse, hv1]
    · simp [hse, Ne.symm hne]
  have hsid1 : ChatRepository.get_by_session_id
      (SessionManager.get_or_create_session db none sid tid u1 v1).2 sid2
      = none := by
    rw [h1]
    simp [ChatRepository.get_by_session_id, List.find?_append,
      show db.chats.find? (fun c => c.session_id == sid2) = none from hsid2,
      hchat1]
  have h2 := gocs_autocreate_eq
    (SessionManager.get_or_create_session db none sid tid u1 v1).2 sid2 tid u2 v2
    hsid1 htid1
  refine ⟨?_, ?_, ?_, ?_, ?_⟩
  · simp [SessionManager.get_task, htid1]
  · rw [h1]
  · rw [h2, h1]
    simp
  · intro h
    have := congrArg TaskRec.id h
    simp at this
  · rw [h2]
    simp only [SessionManager.get_task]
    rw [show TaskRepository.get_by_external_id _ tid = none from ?_]
    · rw [h1]
      simp [TaskRepository.get_by_external_id, List.find?_append,
        show db.tasks.find? (fun x => x.external_id == tid) = none from htid,
        hu1, hu2]

/-- Witness for C10: after auto-creating placeholders for the
unresolved task id `"ghost"`, `"ghost"` still resolves to no task. -/
theorem claim_placeholder_task_fresh_witness :
    ChatRepository.get_by_session_id dbWithSession "s-x" = none ∧
    ChatRepository.get_by_session_id dbWithSession "s-y" = none ∧
    TaskRepository.get_by_external_id dbWithSession "ghost" = none ∧
    SessionManager.get_task
        (SessionManager.get_or_create_session dbWithSession none "s-x" "ghost"
          "uuid-100" "u-chat-1").2 "ghost" = none ∧
    SessionManager.get_task
        (SessionManager.get_or_create_session
          (SessionManager.get_or_create_session dbWithSession none "s-x" "ghost"
            "uuid-100" "u-chat-1").2
          none "s-y" "ghost" "uuid-101" "u-chat-2").2 "ghost" = none :=
  ⟨by decide, by decide, by decide,
   (claim_placeholder_task_fresh dbWithSession "s-x" "s-y" "ghost" "uuid-100"
      "uuid-101" "u-chat-1" "u-chat-2" (by decide) (by decide) (by decide)
      (by decide) (by decide) (by decide) (by decide)).1,
   (claim_placeholder_task_fresh dbWithSession "s-x" "s-y" "ghost" "uuid-100"
      "uuid-101" "u-chat-1" "u-chat-2" (by decide) (by decide) (by decide)
      (by decide) (by decide) (by decide) (by decide)).2.2.2.2⟩
